import Mathlib

/-!
Verification of the governant repository's decision-backend core.

Shallow embedding of:
  - src/governant/core.py   (PolicyEngine, PolicyRegistry, _WasmBackend,
    _CliBackend, _wrap_wasm_as_bundle, _write_temp_json,
    _extract_opa_json_value)
  - src/opawasm/main.py     (_norm_entry, EvalResult.as_bool,
    EvalResult.as_list, PolicyEngine.evaluate)
  - src/ghprotect/handler.py (process_event result-normalization, lines
    157-172)

Python JSON-compatible values are modelled by the inductive type `JValue`
(strings as `List Char`, numbers as `Int`; object fields as an association
list looked up at the first matching key, which coincides with Python dict
lookup since dict keys are unique).
-/

namespace Governant

/-- A JSON-compatible Python value, as passed between the policy backends
and the normalizers. -/
inductive JValue where
  | null : JValue
  | bool (b : Bool) : JValue
  | num (n : Int) : JValue
  | str (s : List Char) : JValue
  | arr (xs : List JValue) : JValue
  | obj (fields : List (List Char × JValue)) : JValue

/-- Python truthiness (`bool(v)`) on JSON-compatible values: `None`, `False`,
`0`, `""`, `[]`, `{}` are falsy, everything else truthy. -/
def truthy : JValue → Bool
  | .null => false
  | .bool b => b
  | .num n => n != 0
  | .str s => !s.isEmpty
  | .arr xs => !xs.isEmpty
  | .obj fs => !fs.isEmpty

/-- Dictionary lookup (`d[k]` / `d.get(k)`): the first field with the given
key, if any. -/
def lookupField : List (List Char × JValue) → List Char → Option JValue
  | [], _ => none
  | (k, v) :: rest, key => if k = key then some v else lookupField rest key

def rkey : List Char := "result".toList
def ekey : List Char := "expressions".toList
def vkey : List Char := "value".toList

/-- EvalResult.as_bool (src/opawasm/main.py lines 61-86): coerce the
engine's raw output to a boolean through the layered shape checks, falling
back to Python truthiness. -/
def as_bool (raw : JValue) : Bool :=
  match raw with
  | .bool b => b
  | .arr (item :: rest) =>
    match item with
    | .obj fs =>
      match lookupField fs rkey with
      | some (.bool b) => b
      | _ =>
        match lookupField fs ekey with
        | some (.arr (e0 :: _)) =>
          match e0 with
          | .obj efs =>
            match lookupField efs vkey with
            | some (.bool b) => b
            | _ => truthy (.arr (item :: rest))
          | _ => truthy (.arr (item :: rest))
        | _ => truthy (.arr (item :: rest))
    | _ => truthy (.arr (item :: rest))
  | v => truthy v

/-- EvalResult.as_list (src/opawasm/main.py lines 88-91): a list is
returned unchanged, anything else is wrapped in a one-element list. -/
def as_list (raw : JValue) : List JValue :=
  match raw with
  | .arr xs => xs
  | v => [v]

/-- Whether a value is a Python list (`isinstance(v, list)`). -/
def isArr : JValue → Bool
  | .arr _ => true
  | _ => false

/-- The canonical entrypoint marker `"data."` as a character list. -/
def dataDot : List Char := "data.".toList

/-- opawasm `_norm_entry` (src/opawasm/main.py lines 39-49): leave entries
already starting with `data.` alone; otherwise replace slashes by dots
(the source's `entry.replace` with a one-character pattern acts on each
character) and prepend `data.`. -/
def norm_entry (e : List Char) : List Char :=
  if dataDot.isPrefixOf e then e
  else if e.contains '/' then
    dataDot ++ e.map (fun c => if c = '/' then '.' else c)
  else dataDot ++ e

/-- governant `PolicyEngine._ep` (src/governant/core.py line 227):
the f-string `data.{pkg}.{rule}`. -/
def ep (pkg rule : List Char) : List Char := dataDot ++ pkg ++ ['.'] ++ rule

/-- governant `PolicyEngine.allow` post-processing (src/governant/core.py
lines 232-234) applied to a successfully returned backend value: Python
`bool(val)`. -/
def engineAllowVal (val : JValue) : Bool := truthy val

/-- governant `PolicyEngine.violations` post-processing
(src/governant/core.py lines 236-240): a list is returned unchanged,
`None` becomes the empty list, any other value is wrapped. -/
def engineViolationsVal (val : JValue) : List JValue :=
  match val with
  | .arr xs => xs
  | .null => []
  | v => [v]

/-- The decision dictionary built by `PolicyEngine.decision`
(src/governant/core.py lines 242-243). -/
structure Decision where
  allow : Bool
  violations : List JValue

/-- governant `PolicyEngine.allow` (src/governant/core.py lines 232-234)
against an abstract successfully-evaluating backend `B` (entrypoint and
input to raw result); backend exceptions propagate and yield no value, so
only successful evaluations are modelled. -/
def engineAllow (B : List Char → JValue → JValue) (pkg : List Char)
    (input : JValue) : Bool :=
  engineAllowVal (B (ep pkg ("allow".toList)) input)

/-- governant `PolicyEngine.violations` (src/governant/core.py lines
236-240) against an abstract successfully-evaluating backend. -/
def engineViolations (B : List Char → JValue → JValue) (pkg : List Char)
    (input : JValue) : List JValue :=
  engineViolationsVal (B (ep pkg ("violations".toList)) input)

/-- governant `PolicyEngine.decision` (src/governant/core.py lines
242-243): the returned dictionary pairs the raw `allow()` coercion with
the `violations()` list; no conjunction is applied. -/
def engineDecision (B : List Char → JValue → JValue) (pkg : List Char)
    (input : JValue) : Decision :=
  { allow := engineAllow B pkg input,
    violations := engineViolations B pkg input }

/-- governant `PolicyEngine.evaluate` (src/governant/core.py lines
229-230): the entrypoint and input document are handed to the bound
backend verbatim. -/
def govEvaluate {α : Type} (backendEval : List Char → JValue → α)
    (entrypoint : List Char) (input : JValue) : α :=
  backendEval entrypoint input

/-- opawasm `PolicyEngine.evaluate` (src/opawasm/main.py lines 179-186):
normalizes the entrypoint with `_norm_entry`, then calls the loaded
policy (the `TypeError` retry at lines 183-185 re-invokes the policy with
the same normalized entrypoint, so a single call models both paths). -/
def opaEvaluate (policy : List Char → JValue → JValue)
    (entrypoint : List Char) (input : JValue) : JValue :=
  policy (norm_entry entrypoint) input

/-- Error kinds raised by the embedded code paths (`PolicyError` messages
and uncaught Python exceptions, identified by origin). -/
inductive PErr where
  | entryNotData : PErr
  | bundleBuild : PErr
  | notSerializable : PErr
  | malformedOutput : PErr
  | procError : PErr
  | artifactNotFound : PErr
  | opaWasmMissing : PErr
  | wasmExtRequired : PErr
  | opaCliMissing : PErr
  | badMode : PErr
  | dupName : PErr
  | attrError : PErr
deriving DecidableEq, Repr

/-- ghprotect `process_event` allow-coercion (src/ghprotect/handler.py
line 157): `bool(allow_res)` when the raw result is a boolean, else
`bool(allow_res.get("result", allow_res))` — which raises
`AttributeError` when the raw result is neither a boolean nor a mapping. -/
def handlerAllowCoerce : JValue → Except PErr Bool
  | .bool b => .ok b
  | .obj fs => .ok (truthy ((lookupField fs rkey).getD (.obj fs)))
  | _ => .error .attrError

/-- ghprotect `process_event` violations-normalization
(src/ghprotect/handler.py lines 158-166); `s` abstracts Python `str`. -/
def handlerViolations (s : JValue → List Char) : JValue → List (List Char)
  | .arr xs => xs.map s
  | .obj fs =>
    match lookupField fs rkey with
    | some (.arr xs) => xs.map s
    | some r => if truthy r then [s r] else []
    | none => []
  | _ => []

/-- The decision dictionary built by ghprotect `process_event` (the
`message` field is informational text derived from `allow` and is not
modelled). -/
structure HDecision where
  allow : Bool
  violations : List (List Char)

/-- ghprotect `process_event` result assembly (src/ghprotect/handler.py
lines 157-172): `allow` in the returned decision is
`allow and not violations`. -/
def processEventDecision (s : JValue → List Char) (allowRes violRes : JValue) :
    Except PErr HDecision :=
  (handlerAllowCoerce allowRes).map fun pa =>
    let vs := handlerViolations s violRes
    { allow := pa && vs.isEmpty, violations := vs }

/-- The environment the backend constructors probe: which optional
runtimes are importable/installed and which paths exist on disk. -/
structure PyEnv where
  opaWasmImportOk : Bool
  opaCliAvailable : Bool
  files : List (List Char)

/-- The two backend variants of src/governant/core.py. -/
inductive Backend where
  | wasm (artifact : List Char) : Backend
  | cli (artifact : List Char) : Backend
deriving DecidableEq, Repr

/-- Python `str.endswith(suffix)` on character lists. -/
def strEndsWith (suffix s : List Char) : Bool := suffix.isSuffixOf s

/-- The compiled-module extension `".wasm"` as a character list. -/
def wasmSuffix : List Char := ".wasm".toList

/-- ASCII `str.lower` (the mode strings compared against are pure ASCII,
so non-ASCII case folding cannot change any comparison's outcome). -/
def strLower (s : List Char) : List Char :=
  s.map fun c => if 'A' ≤ c ∧ c ≤ 'Z' then Char.ofNat (c.toNat + 32) else c

/-- governant `_WasmBackend.__init__` (src/governant/core.py lines
101-118): import `opa_wasm` (raising `PolicyError` when unavailable),
check the artifact exists, require the `.wasm` extension, then load the
runtime. -/
def mkWasmBackend (env : PyEnv) (artifact : List Char) : Except PErr Backend :=
  if !env.opaWasmImportOk then .error .opaWasmMissing
  else if !env.files.contains artifact then .error .artifactNotFound
  else if !strEndsWith wasmSuffix artifact then .error .wasmExtRequired
  else .ok (.wasm artifact)

/-- governant `_CliBackend.__init__` (src/governant/core.py lines
131-135): check the artifact exists, then require the `opa` executable
on PATH. -/
def mkCliBackend (env : PyEnv) (artifact : List Char) : Except PErr Backend :=
  if !env.files.contains artifact then .error .artifactNotFound
  else if !env.opaCliAvailable then .error .opaCliMissing
  else .ok (.cli artifact)

/-- governant `PolicyEngine._select_backend` (src/governant/core.py lines
208-224): lowercase the mode, reject unknown modes, construct the
requested backend for explicit modes, and in `auto` mode prefer the WASM
backend for `.wasm` artifacts with fallback to the CLI backend when its
construction raises `PolicyError`. -/
def selectBackend (env : PyEnv) (artifact mode : List Char) :
    Except PErr Backend :=
  if strLower mode ≠ "auto".toList ∧ strLower mode ≠ "wasm".toList ∧
      strLower mode ≠ "cli".toList then
    .error .badMode
  else if strLower mode = "wasm".toList then mkWasmBackend env artifact
  else if strLower mode = "cli".toList then mkCliBackend env artifact
  else if strEndsWith wasmSuffix artifact then
    match mkWasmBackend env artifact with
    | .ok b => .ok b
    | .error _ => mkCliBackend env artifact
  else mkCliBackend env artifact

/-- A constructed governant `PolicyEngine` (src/governant/core.py lines
203-206): artifact, default package and the eagerly selected backend. -/
structure Engine where
  artifact : List Char
  defaultPkg : List Char
  backend : Backend
deriving DecidableEq, Repr

/-- governant `PolicyEngine.__init__` (src/governant/core.py lines
203-206): the backend is selected eagerly at construction. -/
def mkEngine (env : PyEnv) (artifact pkg mode : List Char) :
    Except PErr Engine :=
  (selectBackend env artifact mode).map fun b =>
    { artifact := artifact, defaultPkg := pkg, backend := b }

/-- The registry's name-to-engine dictionary, looked up at the first
matching name (Python dict keys are unique, so this coincides with dict
lookup). -/
def Registry := List (List Char × Engine)

/-- Dictionary lookup in the registry (`name in self._engines`). -/
def regLookup (r : Registry) (name : List Char) : Option Engine :=
  match r with
  | [] => none
  | (k, e) :: rest => if k = name then some e else regLookup rest name

/-- governant `PolicyRegistry.register` (src/governant/core.py lines
253-256): raise on a duplicate name before any mutation; construct the
engine eagerly (its exception also leaves the mapping untouched); only
then bind the name. The pair returns the raised-or-ok outcome together
with the registry state after the call. -/
def register (env : PyEnv) (r : Registry) (name artifact pkg mode : List Char) :
    Except PErr Unit × Registry :=
  if (regLookup r name).isSome then (.error .dupName, r)
  else
    match mkEngine env artifact pkg mode with
    | .error e => (.error e, r)
    | .ok eng => (.ok (), (name, eng) :: r)

/-- governant `_extract_opa_json_value` (src/governant/core.py lines
66-85): unwrap `{"result":[{"expressions":[{"value": V}]}]}` to `V` when
`V` is not null, else unwrap a non-list `result`, else return the parsed
value unchanged. -/
def extract_opa_json_value (parsed : JValue) : JValue :=
  match parsed with
  | .obj fs =>
    let deep : Option JValue :=
      match lookupField fs rkey with
      | some (.arr (first :: _)) =>
        match first with
        | .obj ffs =>
          match lookupField ffs ekey with
          | some (.arr (e0 :: _)) =>
            match e0 with
            | .obj efs =>
              match lookupField efs vkey with
              | some .null => none
              | some v => some v
              | none => none
            | _ => none
          | _ => none
        | _ => none
      | _ => none
    match deep with
    | some v => v
    | none =>
      match lookupField fs rkey with
      | some r => if isArr r then parsed else r
      | none => parsed
  | v => v

/-- The observable side-effect state of one external-process evaluation:
which temporary files exist on disk (by creation id), the next fresh
id handed out by `tempfile.mkstemp`, and how many subprocesses have been
spawned. -/
structure FsState where
  files : List Nat
  nextId : Nat
  spawned : Nat
deriving DecidableEq, Repr

/-- `tempfile.mkstemp`: create a fresh file and return its id. -/
def mkstemp (s : FsState) : Nat × FsState :=
  (s.nextId, { files := s.nextId :: s.files, nextId := s.nextId + 1,
               spawned := s.spawned })

/-- `os.remove` (its own failure is swallowed by the source's guards, so
the model removes unconditionally). -/
def removeFile (f : Nat) (s : FsState) : FsState :=
  { files := s.files.filter (fun g => g != f), nextId := s.nextId,
    spawned := s.spawned }

/-- `subprocess.run`: spawn one subprocess. -/
def spawnProc (s : FsState) : FsState :=
  { files := s.files, nextId := s.nextId, spawned := s.spawned + 1 }

/-- The external outcomes a single CLI evaluation can encounter: whether
`tarfile` writing succeeds, whether `json.dump` of the input document
succeeds, the subprocess exit status, and the parse of its stdout
(`none` models `json.loads` failing; empty stdout is `some (.obj [])`
because the source substitutes `{}`). -/
structure CliEnv where
  tarOk : Bool
  serializable : Bool
  returncodeZero : Bool
  stdoutJson : Option JValue

/-- governant `_wrap_wasm_as_bundle` (src/governant/core.py lines 47-63):
create a temporary archive; on a tar failure remove it again and raise. -/
def wrap_wasm_as_bundle (env : CliEnv) (s : FsState) :
    Except PErr Nat × FsState :=
  let (b, s1) := mkstemp s
  if env.tarOk then (.ok b, s1)
  else (.error .bundleBuild, removeFile b s1)

/-- governant `_write_temp_json` (src/governant/core.py lines 39-44):
`mkstemp` creates the file first; a `json.dump` failure then propagates
with the file left on disk. -/
def write_temp_json (env : CliEnv) (s : FsState) : Except PErr Nat × FsState :=
  let (t, s1) := mkstemp s
  if env.serializable then (.ok t, s1)
  else (.error .notSerializable, s1)

/-- governant `_CliBackend.evaluate` (src/governant/core.py lines
137-184): reject entrypoints without the `data.` prefix before any side
effect; wrap a bare `.wasm` artifact into a temporary bundle; write the
input document to a temporary file; run `opa eval`; interpret its output;
and in the `finally` block remove the temporary input file and, when one
was synthesized, the temporary bundle. -/
def cliEvaluate (env : CliEnv) (artifact e : List Char) (s : FsState) :
    Except PErr JValue × FsState :=
  if !dataDot.isPrefixOf e then (.error .entryNotData, s)
  else
    let bundleStep : Except PErr (Option Nat) × FsState :=
      if strEndsWith wasmSuffix artifact then
        match wrap_wasm_as_bundle env s with
        | (.ok b, s1) => (.ok (some b), s1)
        | (.error err, s1) => (.error err, s1)
      else (.ok none, s)
    match bundleStep with
    | (.error err, s1) => (.error err, s1)
    | (.ok tmpBundle, s1) =>
      match write_temp_json env s1 with
      | (.error err, s2) => (.error err, s2)
      | (.ok inputTmp, s2) =>
        let s3 := spawnProc s2
        let res : Except PErr JValue :=
          if env.returncodeZero then
            match env.stdoutJson with
            | some v => .ok (extract_opa_json_value v)
            | none => .error .malformedOutput
          else .error .procError
        let s4 := removeFile inputTmp s3
        let s5 := match tmpBundle with
          | some b => removeFile b s4
          | none => s4
        (res, s5)

/-- governant `_WasmBackend.evaluate` (src/governant/core.py lines
120-123): reject entrypoints without the `data.` prefix, otherwise call
the loaded runtime. The second component records the entrypoint the
runtime was invoked with (`none` when it was never called). -/
def wasmEvaluate (rt : JValue → List Char → JValue) (e : List Char)
    (input : JValue) : Except PErr JValue × Option (List Char) :=
  if !dataDot.isPrefixOf e then (.error .entryNotData, none)
  else (.ok (rt input e), some e)

/-- Whether a value is a Python mapping (`isinstance(v, dict)`). -/
def isObj : JValue → Bool
  | .obj _ => true
  | _ => false

/-- A concrete backend whose allow entrypoint evaluates to `True` while
its violations entrypoint evaluates to the non-empty list `["x"]`. -/
def cexBackend : List Char → JValue → JValue := fun e _ =>
  if e = ep ("p".toList) ("allow".toList) then .bool true
  else .arr [.str ['x']]

/-- A concrete constructed engine used to populate a registry. -/
def engineDemo : Engine :=
  { artifact := "p.wasm".toList, defaultPkg := "pkg".toList,
    backend := .cli ("p.wasm".toList) }

/-!
Helper lemmas shared by the claim theorems below.
-/

theorem norm_entry_has_dataDot (e : List Char) :
    dataDot.isPrefixOf (norm_entry e) = true := by
  unfold norm_entry
  by_cases h : dataDot.isPrefixOf e
  · simp [h]
  · by_cases h2 : '/' ∈ e <;> simp [h, h2]

theorem norm_entry_of_dataDot {e : List Char}
    (h : dataDot.isPrefixOf e = true) : norm_entry e = e := by
  unfold norm_entry
  simp [h]

theorem as_bool_default_arm (fs : List (List Char × JValue))
    (rest : List JValue)
    (h2 : ∀ efs es b', lookupField fs ekey = some (.arr (.obj efs :: es)) →
      lookupField efs vkey ≠ some (.bool b')) :
    (match lookupField fs ekey with
     | some (.arr (e0 :: _)) =>
       match e0 with
       | .obj efs =>
         match lookupField efs vkey with
         | some (.bool b) => b
         | _ => truthy (.arr (.obj fs :: rest))
       | _ => truthy (.arr (.obj fs :: rest))
     | _ => truthy (.arr (.obj fs :: rest)))
    = truthy (.arr (.obj fs :: rest)) := by
  rcases he : lookupField fs ekey with _ | w
  · simp
  · cases w with
    | arr ys =>
      cases ys with
      | nil => simp
      | cons e0 es =>
        cases e0 with
        | obj efs =>
          rcases hv : lookupField efs vkey with _ | u
          · simp [hv]
          · cases u with
            | bool b' => exact absurd hv (h2 efs es b' he)
            | null => simp [hv]
            | num n => simp [hv]
            | str s => simp [hv]
            | arr xs => simp [hv]
            | obj gs => simp [hv]
        | null => simp
        | bool b => simp
        | num n => simp
        | str s => simp
        | arr xs => simp
    | null => simp
    | bool b => simp
    | num n => simp
    | str s => simp
    | obj gs => simp

theorem filter_bne_self (l : List Nat) (x : Nat) (h : ∀ f ∈ l, f ≠ x) :
    l.filter (fun g => g != x) = l := by
  rw [List.filter_eq_self]
  intro a ha
  simp [h a ha]

theorem filter_bne_cons (l : List Nat) (x : Nat) (h : ∀ f ∈ l, f ≠ x) :
    (x :: l).filter (fun g => g != x) = l := by
  rw [List.filter_cons]
  simp [filter_bne_self l x h]

theorem select_error_of_missing (env : PyEnv) (a m : List Char)
    (h : env.files.contains a = false) :
    ∃ err, selectBackend env a m = .error err := by
  have hm : a ∉ env.files := by simpa using h
  have hwasm : ∀ x, mkWasmBackend env a ≠ .ok x := by
    intro x
    unfold mkWasmBackend
    by_cases hi : env.opaWasmImportOk <;> simp [hi, hm]
  have hcli : ∀ x, mkCliBackend env a ≠ .ok x := by
    intro x
    unfold mkCliBackend
    simp [hm]
  unfold selectBackend
  split
  · exact ⟨.badMode, rfl⟩
  · split
    · rcases he : mkWasmBackend env a with err | x
      · exact ⟨err, rfl⟩
      · exact absurd he (hwasm x)
    · split
      · rcases he : mkCliBackend env a with err | x
        · exact ⟨err, rfl⟩
        · exact absurd he (hcli x)
      · split
        · rcases he : mkWasmBackend env a with err | x
          · rcases hc : mkCliBackend env a with err2 | x2
            · exact ⟨err2, rfl⟩
            · exact absurd hc (hcli x2)
          · exact absurd he (hwasm x)
        · rcases hc : mkCliBackend env a with err2 | x2
          · exact ⟨err2, rfl⟩
          · exact absurd hc (hcli x2)

/-- Claim C1, counterexample: against a backend whose allow entrypoint
returns `True` and whose violations entrypoint returns the non-empty list
`["x"]`, the decision returned by `PolicyEngine.decision` has
`allow = true` even though `violations(input)` is non-empty, so the
claimed equivalence fails at this input. -/
theorem decision_allow_not_conjunctive_cex :
    ¬(((engineDecision cexBackend ("p".toList) .null).allow = true) ↔
      (engineAllow cexBackend ("p".toList) .null = true ∧
       engineViolations cexBackend ("p".toList) .null = [])) := by
  intro h
  have h1 : (engineDecision cexBackend ("p".toList) .null).allow = true := rfl
  have h2 := (h.mp h1).2
  have h3 : engineViolations cexBackend ("p".toList) .null
      = [.str ['x']] := rfl
  rw [h3] at h2
  exact List.cons_ne_nil _ _ h2

/-- Claim C1, amended: the allow flag of the decision returned by
`PolicyEngine.decision` equals the coerced `allow(input)` alone,
independent of `violations(input)`; the conjunctive safety rule holds
instead for ghprotect `process_event`, whose decision's allow flag is
true iff the coerced allow result is true and the normalized violations
list is empty. -/
theorem decision_allow_forms :
    (∀ (B : List Char → JValue → JValue) (pkg : List Char) (input : JValue),
      (engineDecision B pkg input).allow = engineAllow B pkg input) ∧
    (∀ (s : JValue → List Char) (a v : JValue) (pa : Bool),
      handlerAllowCoerce a = .ok pa →
      ∃ d, processEventDecision s a v = .ok d ∧
        (d.allow = true ↔ (pa = true ∧ d.violations = []))) := by
  constructor
  · intro B pkg input
    rfl
  · intro s a v pa h
    refine ⟨_, by rw [processEventDecision, h]; rfl, ?_⟩
    simp [Bool.and_eq_true, List.isEmpty_iff]

/-- Claim C1, witness for the amended theorem at a concrete raw-result
pair. -/
theorem decision_allow_forms_witness :
    ∃ d, processEventDecision (fun _ => ['x']) (.bool true) (.arr [])
        = .ok d ∧
      (d.allow = true ↔ (true = true ∧ d.violations = [])) :=
  decision_allow_forms.2 (fun _ => ['x']) (.bool true) (.arr []) true rfl

/-- Claim C2: `EvalResult.as_bool` handles the four raw-result shapes as
specified — a bare boolean is returned as-is; a non-empty list whose
first element is a mapping with a boolean `result` key yields that value;
failing that, a mapping with an `expressions` list whose first element
carries a boolean `value` yields that value; and every other value is
coerced by general truthiness, with empty list, empty mapping and null
giving false (the embedding is a total function, so no input raises).
The catch-all clause covers scalars, mappings, lists headed by a
non-mapping, and lists headed by a mapping that matches neither special
form — any `result` key that is not a boolean and any `expressions`
chain that does not end in a boolean `value` fall through to the
truthiness of the raw value. -/
theorem as_bool_shape_cases :
    (∀ b, as_bool (.bool b) = b) ∧
    (∀ fs rest b, lookupField fs rkey = some (.bool b) →
      as_bool (.arr (.obj fs :: rest)) = b) ∧
    (∀ fs rest efs es b,
      (∀ b', lookupField fs rkey ≠ some (.bool b')) →
      lookupField fs ekey = some (.arr (.obj efs :: es)) →
      lookupField efs vkey = some (.bool b) →
      as_bool (.arr (.obj fs :: rest)) = b) ∧
    (as_bool .null = false ∧ as_bool (.arr []) = false ∧
      as_bool (.obj []) = false) ∧
    (∀ n, as_bool (.num n) = truthy (.num n)) ∧
    (∀ s, as_bool (.str s) = truthy (.str s)) ∧
    (∀ fs, as_bool (.obj fs) = truthy (.obj fs)) ∧
    (∀ x xs, isObj x = false → as_bool (.arr (x :: xs)) = true) ∧
    (∀ fs rest,
      (∀ b', lookupField fs rkey ≠ some (.bool b')) →
      (∀ efs es b', lookupField fs ekey = some (.arr (.obj efs :: es)) →
        lookupField efs vkey ≠ some (.bool b')) →
      as_bool (.arr (.obj fs :: rest))
        = truthy (.arr (.obj fs :: rest))) := by
  refine ⟨fun b => rfl, ?_, ?_, ⟨rfl, rfl, rfl⟩, fun n => rfl, fun s => rfl,
    fun fs => ?_, ?_, ?_⟩
  · intro fs rest b h
    simp [as_bool, h]
  · intro fs rest efs es b hnb hek hv
    rcases hres : lookupField fs rkey with _ | v
    · simp [as_bool, hres, hek, hv]
    · cases v with
      | bool b' => exact absurd hres (hnb b')
      | null => simp [as_bool, hres, hek, hv]
      | num n => simp [as_bool, hres, hek, hv]
      | str s => simp [as_bool, hres, hek, hv]
      | arr xs => simp [as_bool, hres, hek, hv]
      | obj gs => simp [as_bool, hres, hek, hv]
  · cases fs with
    | nil => rfl
    | cons f fs => rfl
  · intro x xs h
    cases x <;> simp_all [as_bool, isObj, truthy]
  · intro fs rest h1 h2
    rcases hr : lookupField fs rkey with _ | v
    · simp only [as_bool, hr]
      exact as_bool_default_arm fs rest h2
    · cases v with
      | bool b' => exact absurd hr (h1 b')
      | null =>
        simp only [as_bool, hr]
        exact as_bool_default_arm fs rest h2
      | num n =>
        simp only [as_bool, hr]
        exact as_bool_default_arm fs rest h2
      | str s =>
        simp only [as_bool, hr]
        exact as_bool_default_arm fs rest h2
      | arr xs =>
        simp only [as_bool, hr]
        exact as_bool_default_arm fs rest h2
      | obj gs =>
        simp only [as_bool, hr]
        exact as_bool_default_arm fs rest h2

/-- Claim C2, witness: the shape cases evaluated at one concrete instance
of each hypothesis-bearing shape, including non-empty lists headed by a
mapping that matches neither special form — a string-valued `result` key
and a list-valued `result` key both coerce by truthiness of the whole
raw list. -/
theorem as_bool_shape_cases_witness :
    as_bool (.arr [.obj [(rkey, .bool true)]]) = true ∧
    as_bool (.arr [.obj [(ekey, .arr [.obj [(vkey, .bool false)]])]])
      = false ∧
    as_bool (.arr [.num 1]) = true ∧
    as_bool (.arr [.obj [(rkey, .str ['y', 'e', 's'])]]) = true ∧
    as_bool (.arr [.obj [(rkey, .arr [.num 1])]]) = true :=
  ⟨as_bool_shape_cases.2.1 [(rkey, .bool true)] [] true rfl,
   as_bool_shape_cases.2.2.1 [(ekey, .arr [.obj [(vkey, .bool false)]])] []
     [(vkey, .bool false)] [] false (fun _ h => Option.noConfusion h)
     rfl rfl,
   as_bool_shape_cases.2.2.2.2.2.2.2.1 (.num 1) [] rfl,
   as_bool_shape_cases.2.2.2.2.2.2.2.2 [(rkey, .str ['y', 'e', 's'])] []
     (fun _ h => JValue.noConfusion (Option.some.inj h))
     (fun _ _ _ h => Option.noConfusion h),
   as_bool_shape_cases.2.2.2.2.2.2.2.2 [(rkey, .arr [.num 1])] []
     (fun _ h => JValue.noConfusion (Option.some.inj h))
     (fun _ _ _ h => Option.noConfusion h)⟩

/-- Claim C3, counterexample: neither `EvalResult.as_list` nor
`PolicyEngine.violations` unwraps a mapping with a `result` key — on
`{"result": []}` the claim demands the unwrapped empty list, but both
return the one-element list containing the mapping itself. -/
theorem as_list_result_unwrap_cex :
    as_list (.obj [(rkey, .arr [])]) = [.obj [(rkey, .arr [])]] ∧
    as_list (.obj [(rkey, .arr [])]) ≠ [] ∧
    engineViolationsVal (.obj [(rkey, .arr [])])
      = [.obj [(rkey, .arr [])]] ∧
    engineViolationsVal (.obj [(rkey, .arr [])]) ≠ [] := by
  refine ⟨rfl, by simp [as_list], rfl, by simp [engineViolationsVal]⟩

/-- Claim C3, amended: `EvalResult.as_list` returns a bare list unchanged
with element order preserved and wraps any other value — null and
mappings with a `result` key included, which it does not unwrap — into a
one-element list; `PolicyEngine.violations` returns a bare list
unchanged, the empty list for null, and a one-element list for any other
value, also without unwrapping a `result` mapping. -/
theorem as_list_and_violations_forms :
    (∀ xs, as_list (.arr xs) = xs) ∧
    (∀ v, isArr v = false → as_list v = [v]) ∧
    (∀ xs, engineViolationsVal (.arr xs) = xs) ∧
    engineViolationsVal .null = [] ∧
    (∀ v, isArr v = false → v ≠ .null → engineViolationsVal v = [v]) := by
  refine ⟨fun xs => rfl, ?_, fun xs => rfl, rfl, ?_⟩
  · intro v h
    cases v <;> simp_all [as_list, isArr]
  · intro v h hn
    cases v <;> simp_all [engineViolationsVal, isArr]

/-- Claim C3, witness for the amended theorem at a concrete scalar. -/
theorem as_list_and_violations_forms_witness :
    as_list (.num 3) = [.num 3] ∧
    engineViolationsVal (.num 3) = [.num 3] :=
  ⟨as_list_and_violations_forms.2.1 (.num 3) rfl,
   as_list_and_violations_forms.2.2.2.2 (.num 3) rfl
     (fun h => JValue.noConfusion h)⟩

/-- Claim C5: `_norm_entry` is idempotent on every string, and the slash
form and dot form of the same name normalize to the same canonical
value: both `a/b/c` and `a.b.c` normalize to `data.a.b.c`. -/
theorem norm_entry_idempotent_canonical :
    (∀ e : List Char, norm_entry (norm_entry e) = norm_entry e) ∧
    norm_entry ("a/b/c".toList) = "data.a.b.c".toList ∧
    norm_entry ("a.b.c".toList) = "data.a.b.c".toList := by
  refine ⟨fun e => norm_entry_of_dataDot (norm_entry_has_dataDot e),
    by decide, by decide⟩

/-- Claim C4, counterexample: when serializing the input document fails
(`json.dump` raising inside `_write_temp_json`, e.g. on a document
containing a non-JSON-serializable object), the evaluate call fails with
that error but the just-created temporary input file (id 1) and the
synthesized temporary bundle (id 0) are still on disk afterwards, because
`_write_temp_json` runs before the `try`/`finally` block begins. -/
theorem cli_cleanup_leak_cex :
    (cliEvaluate ⟨true, false, true, some (.obj [])⟩ ("p.wasm".toList)
      ("data.x".toList) ⟨[], 0, 0⟩).1 = .error .notSerializable ∧
    (cliEvaluate ⟨true, false, true, some (.obj [])⟩ ("p.wasm".toList)
      ("data.x".toList) ⟨[], 0, 0⟩).2.files = [1, 0] := by
  exact ⟨rfl, by decide⟩

/-- Claim C4, amended: after any single evaluate call through the CLI
backend in which serializing the input document succeeds, the temporary
input file and the synthesized temporary bundle no longer exist on disk
(the on-disk file set is exactly what it was before the call), whether
the call returns a result or fails with any error; when serialization of
the input document itself fails, the already-created temporary files are
leaked. -/
theorem cli_cleanup_serializable :
    ∀ (env : CliEnv) (a e : List Char) (s : FsState),
      (∀ f ∈ s.files, f < s.nextId) → env.serializable = true →
      ((cliEvaluate env a e s).2).files = s.files := by
  intro env a e s hwf hser
  unfold cliEvaluate
  by_cases hpre : dataDot.isPrefixOf e
  · simp only [hpre, Bool.not_true, Bool.false_eq_true, if_false]
    by_cases hw : strEndsWith wasmSuffix a
    · by_cases ht : env.tarOk
      · simp only [hw, if_true, wrap_wasm_as_bundle, write_temp_json,
          mkstemp, ht, hser, spawnProc, removeFile, if_true]
        show List.filter _
          (List.filter _ ((s.nextId + 1) :: s.nextId :: s.files)) = s.files
        rw [filter_bne_cons (s.nextId :: s.files) (s.nextId + 1) ?hfresh]
        · exact filter_bne_cons s.files s.nextId
            (fun f hf => Nat.ne_of_lt (hwf f hf))
        · intro f hf
          rcases List.mem_cons.mp hf with rfl | hf
          · exact Nat.ne_of_lt (Nat.lt_succ_self _)
          · exact Nat.ne_of_lt (Nat.lt_succ_of_lt (hwf f hf))
      · simp only [hw, if_true, wrap_wasm_as_bundle, mkstemp, ht,
          Bool.false_eq_true, if_false, removeFile]
        show List.filter _ (s.nextId :: s.files) = s.files
        exact filter_bne_cons s.files s.nextId
          (fun f hf => Nat.ne_of_lt (hwf f hf))
    · simp only [hw, Bool.false_eq_true, if_false, write_temp_json,
        mkstemp, hser, if_true, spawnProc, removeFile]
      show List.filter _ (s.nextId :: s.files) = s.files
      exact filter_bne_cons s.files s.nextId
        (fun f hf => Nat.ne_of_lt (hwf f hf))
  · simp [hpre]

/-- Claim C4, witness: a successful evaluation on a bare-module artifact
starting from an empty disk leaves the disk empty again. -/
theorem cli_cleanup_serializable_witness :
    ((cliEvaluate ⟨true, true, true, some (.obj [])⟩ ("p.wasm".toList)
      ("data.x".toList) ⟨[], 0, 0⟩).2).files = [] :=
  cli_cleanup_serializable ⟨true, true, true, some (.obj [])⟩
    ("p.wasm".toList) ("data.x".toList) ⟨[], 0, 0⟩ (by simp) rfl

/-- Claim C6, counterexample: the governant Policy Handle's evaluate
(`PolicyEngine.evaluate`, core.py lines 229-230) delegates the
slash-delimited entrypoint `a/b/c` to its backend verbatim rather than
the canonical `data.a.b.c` that `_norm_entry` produces, and its WASM
backend then rejects the call instead of evaluating, so no normalization
happened for this caller-supplied entrypoint. -/
theorem gov_evaluate_no_normalization_cex :
    govEvaluate (fun (e : List Char) (_ : JValue) => e) ("a/b/c".toList)
      .null = "a/b/c".toList ∧
    norm_entry ("a/b/c".toList) = "data.a.b.c".toList ∧
    "a/b/c".toList ≠ "data.a.b.c".toList ∧
    govEvaluate (wasmEvaluate (fun _ _ => .bool true)) ("a/b/c".toList)
      .null = (.error .entryNotData, none) := by
  refine ⟨rfl, by decide, by decide, rfl⟩

/-- Claim C6, amended: the opawasm Policy Handle's evaluate normalizes
the entrypoint with `_norm_entry` before delegating to the loaded policy,
and the delegated entrypoint always carries the canonical `data.` prefix;
the governant Policy Handle's evaluate delegates the caller's entrypoint
to the bound backend unchanged, and that backend rejects any entrypoint
not already prefixed with `data.`. -/
theorem evaluate_normalization_forms :
    (∀ (policy : List Char → JValue → JValue) (e : List Char)
      (input : JValue),
      opaEvaluate policy e input = policy (norm_entry e) input) ∧
    (∀ e : List Char, dataDot.isPrefixOf (norm_entry e) = true) ∧
    (∀ (α : Type) (backendEval : List Char → JValue → α) (e : List Char)
      (input : JValue),
      govEvaluate backendEval e input = backendEval e input) ∧
    (∀ (rt : JValue → List Char → JValue) (e : List Char) (input : JValue),
      dataDot.isPrefixOf e = false →
      wasmEvaluate rt e input = (.error .entryNotData, none)) := by
  refine ⟨fun _ _ _ => rfl, norm_entry_has_dataDot, fun _ _ _ _ => rfl, ?_⟩
  intro rt e input h
  simp [wasmEvaluate, h]

/-- Claim C6, witness for the amended theorem: the backend-side rejection
evaluated at a concrete unprefixed entrypoint. -/
theorem evaluate_normalization_forms_witness :
    wasmEvaluate (fun _ _ => JValue.null) ("allow".toList) .null
      = (.error .entryNotData, none) :=
  evaluate_normalization_forms.2.2.2 (fun _ _ => JValue.null)
    ("allow".toList) .null (by decide)

/-- Claim C7: registering a policy under a name that is already bound
raises the duplicate-name `PolicyError` and leaves the registry's
name-to-handle mapping exactly as it was — the existing handle is not
overwritten and no entry is added. -/
theorem register_duplicate_rejected :
    ∀ (env : PyEnv) (r : Registry) (name a p m : List Char),
      (regLookup r name).isSome = true →
      register env r name a p m = (.error .dupName, r) := by
  intro env r name a p m h
  simp [register, h]

/-- Claim C7, witness: re-registering the bound name `x` fails and
returns the one-entry registry unchanged. -/
theorem register_duplicate_rejected_witness :
    register ⟨true, true, ["p.wasm".toList]⟩ [("x".toList, engineDemo)]
      ("x".toList) ("p.wasm".toList) ("pkg".toList) ("auto".toList)
      = (.error .dupName, [("x".toList, engineDemo)]) :=
  register_duplicate_rejected ⟨true, true, ["p.wasm".toList]⟩
    [("x".toList, engineDemo)] ("x".toList) ("p.wasm".toList)
    ("pkg".toList) ("auto".toList) rfl

/-- Claim C8: in mode `auto` with a bare `.wasm` artifact the embedded
(WASM) backend is chosen, and when its construction raises, the
external-process (CLI) backend is constructed instead; explicit `wasm`
and `cli` modes construct exactly the requested backend with no
fallback, so they fail when the `opa_wasm` runtime respectively the
`opa` executable is unavailable. -/
theorem backend_selection_policy :
    ∀ (env : PyEnv) (a : List Char),
      (strEndsWith wasmSuffix a = true →
        (∀ b, mkWasmBackend env a = .ok b →
          selectBackend env a ("auto".toList) = .ok b) ∧
        (∀ err, mkWasmBackend env a = .error err →
          selectBackend env a ("auto".toList) = mkCliBackend env a)) ∧
      selectBackend env a ("wasm".toList) = mkWasmBackend env a ∧
      selectBackend env a ("cli".toList) = mkCliBackend env a ∧
      (env.opaWasmImportOk = false →
        selectBackend env a ("wasm".toList) = .error .opaWasmMissing) ∧
      (env.files.contains a = true → env.opaCliAvailable = false →
        selectBackend env a ("cli".toList) = .error .opaCliMissing) := by
  intro env a
  refine ⟨fun hw => ⟨?_, ?_⟩, rfl, rfl, ?_, ?_⟩
  · intro b hok
    show (if strEndsWith wasmSuffix a = true then
        match mkWasmBackend env a with
        | .ok b => .ok b
        | .error _ => mkCliBackend env a
      else mkCliBackend env a) = .ok b
    rw [hw, if_pos rfl, hok]
  · intro err herr
    show (if strEndsWith wasmSuffix a = true then
        match mkWasmBackend env a with
        | .ok b => .ok b
        | .error _ => mkCliBackend env a
      else mkCliBackend env a) = mkCliBackend env a
    rw [hw, if_pos rfl, herr]
  · intro h
    show mkWasmBackend env a = .error .opaWasmMissing
    simp [mkWasmBackend, h]
  · intro h1 h2
    have h1m : a ∈ env.files := by simpa using h1
    show mkCliBackend env a = .error .opaCliMissing
    simp [mkCliBackend, h1m, h2]

/-- Claim C8, witness: the four selection behaviours evaluated at
concrete environments — WASM runtime present, WASM runtime missing with
fallback, explicit `wasm` mode failing hard, explicit `cli` mode failing
hard. -/
theorem backend_selection_policy_witness :
    selectBackend ⟨true, true, ["p.wasm".toList]⟩ ("p.wasm".toList)
      ("auto".toList) = .ok (.wasm ("p.wasm".toList)) ∧
    selectBackend ⟨false, true, ["p.wasm".toList]⟩ ("p.wasm".toList)
      ("auto".toList)
      = mkCliBackend ⟨false, true, ["p.wasm".toList]⟩ ("p.wasm".toList) ∧
    selectBackend ⟨false, true, ["p.wasm".toList]⟩ ("p.wasm".toList)
      ("wasm".toList) = .error .opaWasmMissing ∧
    selectBackend ⟨true, false, ["b.tar.gz".toList]⟩ ("b.tar.gz".toList)
      ("cli".toList) = .error .opaCliMissing :=
  ⟨((backend_selection_policy ⟨true, true, ["p.wasm".toList]⟩
      ("p.wasm".toList)).1 rfl).1 _ rfl,
   ((backend_selection_policy ⟨false, true, ["p.wasm".toList]⟩
      ("p.wasm".toList)).1 rfl).2 .opaWasmMissing rfl,
   (backend_selection_policy ⟨false, true, ["p.wasm".toList]⟩
      ("p.wasm".toList)).2.2.2.1 rfl,
   (backend_selection_policy ⟨true, false, ["b.tar.gz".toList]⟩
      ("b.tar.gz".toList)).2.2.2.2 rfl rfl⟩

/-- Claim C9: registering a policy whose artifact path does not exist on
disk fails during `register` itself — the engine and its backend are
constructed eagerly and every construction path checks existence or
fails before it — and the failed registration leaves the registry
unchanged, adding no entry. -/
theorem register_missing_artifact_rejected :
    ∀ (env : PyEnv) (r : Registry) (n a p m : List Char),
      env.files.contains a = false →
      (∃ err, (register env r n a p m).1 = .error err) ∧
      (register env r n a p m).2 = r := by
  intro env r n a p m h
  unfold register
  by_cases hd : (regLookup r n).isSome
  · simp [hd]
  · obtain ⟨err, he⟩ := select_error_of_missing env a m h
    simp [hd, mkEngine, he, Except.map]

/-- Claim C9, witness: registering a missing artifact into an empty
registry fails and the registry stays empty. -/
theorem register_missing_artifact_rejected_witness :
    (∃ err, (register ⟨true, true, []⟩ [] ("n".toList)
      ("missing.wasm".toList) ("pkg".toList) ("auto".toList)).1
        = .error err) ∧
    (register ⟨true, true, []⟩ [] ("n".toList) ("missing.wasm".toList)
      ("pkg".toList) ("auto".toList)).2 = [] :=
  register_missing_artifact_rejected ⟨true, true, []⟩ [] ("n".toList)
    ("missing.wasm".toList) ("pkg".toList) ("auto".toList) rfl

/-- Claim C10: for every entrypoint that does not start with `data.`,
both backends' evaluate operations raise the policy error before
touching the engine — the WASM backend returns without invoking the
runtime (call trace `none`), and the CLI backend returns with the file
system and subprocess count exactly as before the call (no temporary
file created, no subprocess spawned). -/
theorem backend_entry_guard :
    ∀ (env : CliEnv) (a : List Char) (s : FsState)
      (rt : JValue → List Char → JValue) (e : List Char) (input : JValue),
      dataDot.isPrefixOf e = false →
      cliEvaluate env a e s = (.error .entryNotData, s) ∧
      wasmEvaluate rt e input = (.error .entryNotData, none) := by
  intro env a s rt e input h
  constructor
  · simp [cliEvaluate, h]
  · simp [wasmEvaluate, h]

/-- Claim C10, witness: the guard evaluated at the concrete unprefixed
entrypoint `allow`. -/
theorem backend_entry_guard_witness :
    cliEvaluate ⟨true, true, true, none⟩ ("p.wasm".toList)
      ("allow".toList) ⟨[], 0, 0⟩
      = (.error .entryNotData, ⟨[], 0, 0⟩) ∧
    wasmEvaluate (fun _ _ => JValue.null) ("allow".toList) .null
      = (.error .entryNotData, none) :=
  backend_entry_guard ⟨true, true, true, none⟩ ("p.wasm".toList)
    ⟨[], 0, 0⟩ (fun _ _ => JValue.null) ("allow".toList) .null (by decide)

end Governant
